import Mathlib

/-!
Verification of the iot_weather_project ingestion and read pipeline.

Shallow embedding of the two source files:
- `src/iot_weather_backend_firebase.py` — the write path (`fetch_and_store`,
  `run_scheduler`): fetch forecast and current reading, align by hour bucket,
  compute squared errors, push one record to the store.
- `src/iot_dashboard_firebase.py` — the read path (`process_data`): build a
  frame from the stored records, check required columns, parse timestamps,
  sort descending.

Python floats are modelled by `FVal`: either NaN or an exact rational; the
arithmetic used by the code (subtraction, squaring) propagates NaN exactly as
IEEE floats do. Wall-clock instants are modelled by `DateTime` records, and
the two fixed `strftime` formats of the code are embedded character by
character.
-/

set_option maxRecDepth 16000

namespace IotWeather

/-- A Python float as used by this code base: NaN, or an exact finite value
(the code only subtracts and squares decimal inputs, so exact rationals model
the values the spec talks about). -/
inductive FVal where
  | nan : FVal
  | fin : ℚ → FVal
deriving DecidableEq, Repr

/-- Subtraction on `FVal`: NaN propagates, as for Python floats. -/
def FVal.sub : FVal → FVal → FVal
  | .fin a, .fin b => .fin (a - b)
  | _, _ => .nan

/-- Squaring (`** 2` in the source): NaN propagates. -/
def FVal.sq : FVal → FVal
  | .fin a => .fin (a ^ 2)
  | .nan => .nan

/-- Whether the value is finite. -/
def FVal.isFinite : FVal → Bool
  | .fin _ => true
  | .nan => false

/-- The metric computation of backend lines 67-68:
`temp_mse = (temp_actual - temp_forecast) ** 2` and likewise for wind. -/
def compute (actual forecast : FVal) : FVal :=
  (actual.sub forecast).sq

/-- A wall-clock instant at second precision, the shape `datetime.now()`
exposes to the two strftime calls of the backend. -/
structure DateTime where
  year : Nat
  month : Nat
  day : Nat
  hour : Nat
  minute : Nat
  second : Nat
deriving DecidableEq, Repr

/-- Leap-year test of the Gregorian calendar (what `pandas.to_datetime`
validates against). -/
def isLeap (y : Nat) : Bool :=
  y % 4 == 0 && (y % 100 != 0 || y % 400 == 0)

/-- Number of days of month `m` of year `y`. -/
def daysInMonth (y m : Nat) : Nat :=
  if m = 2 then (if isLeap y then 29 else 28)
  else if m = 4 ∨ m = 6 ∨ m = 9 ∨ m = 11 then 30
  else 31

/-- A calendar-valid instant: what `datetime.now()` produces and
`pandas.to_datetime` accepts. Years are four digits as `%Y` prints them. -/
def DateTime.Valid (dt : DateTime) : Prop :=
  dt.year < 10000 ∧ 1 ≤ dt.month ∧ dt.month ≤ 12 ∧
  1 ≤ dt.day ∧ dt.day ≤ daysInMonth dt.year dt.month ∧
  dt.hour < 24 ∧ dt.minute < 60 ∧ dt.second < 60

instance (dt : DateTime) : Decidable dt.Valid := by
  unfold DateTime.Valid; infer_instance

/-- The decimal digit character for `n ≤ 9`. -/
def digitChar (n : Nat) : Char := Char.ofNat (48 + n)

/-- Two-digit zero-padded field, as `%m`, `%d`, `%H`, `%M`, `%S` print it. -/
def pad2 (n : Nat) : List Char := [digitChar (n / 10), digitChar (n % 10)]

/-- Four-digit zero-padded field, as `%Y` prints a four-digit year. -/
def pad4 (n : Nat) : List Char :=
  [digitChar (n / 1000), digitChar (n / 100 % 10), digitChar (n / 10 % 10),
   digitChar (n % 10)]

/-- Backend line 48: `now.strftime("%Y-%m-%d %H:%M:%S")`, the timestamp the
write path persists. -/
def strftimeFull (dt : DateTime) : String :=
  String.mk (pad4 dt.year ++ '-' :: (pad2 dt.month ++ '-' :: (pad2 dt.day ++
    ' ' :: (pad2 dt.hour ++ ':' :: (pad2 dt.minute ++ ':' :: pad2 dt.second)))))

/-- Backend line 51, the strftime part: format `"%Y-%m-%dT%H:00"` (the
minutes are a literal `00` of the format string). -/
def strftimeHourBucket (dt : DateTime) : String :=
  String.mk (pad4 dt.year ++ '-' :: (pad2 dt.month ++ '-' :: (pad2 dt.day ++
    'T' :: (pad2 dt.hour ++ ':' :: ['0', '0']))))

/-- Backend line 51, the replace part: `now.replace(minute=0, second=0,
microsecond=0)`. -/
def truncToHour (dt : DateTime) : DateTime :=
  { dt with minute := 0, second := 0 }

/-- Backend line 51 as a whole: the hour bucket string looked up in the
forecast series. -/
def bucketOf (now : DateTime) : String :=
  strftimeHourBucket (truncToHour now)

/-- Parsed forecast response body, shape per the API contract:
`{hourly: {time: [...], temperature_2m: [...], wind_speed_10m: [...]}}`
with parallel arrays. -/
structure ForecastJson where
  time : List String
  temperature_2m : List FVal
  wind_speed_10m : List FVal
deriving Repr

/-- Parsed current-conditions response body:
`{current: {temperature_2m: n, wind_speed_10m: n}}`. -/
structure CurrentJson where
  temperature_2m : FVal
  wind_speed_10m : FVal
deriving Repr

/-- A transport-level failure of `requests.get` (connection error, timeout):
in Python this is a raised exception, not a status code. -/
inductive TransportFailure where
  | exn : TransportFailure
deriving DecidableEq, Repr

/-- Outcome of one `requests.get` plus `.json()`: either an exception or an
HTTP status code with a parsed body. -/
def HttpResult (β : Type) := Except TransportFailure (Nat × β)

/-- The record pushed to the store at backend lines 72-80. -/
structure WeatherRecord where
  timestamp : String
  temp_forecast : FVal
  temp_actual : FVal
  wind_forecast : FVal
  wind_actual : FVal
  temp_mse : FVal
  wind_mse : FVal
deriving DecidableEq, Repr

/-- Result of one call to `fetch_and_store`. Each constructor is one distinct
exit of the Python function:
- `stored`:   `ref.push(...)` ran with the given record (lines 72-80);
- `skippedForecastStatus` / `skippedCurrentStatus`: early `return` on a
  non-200 status (lines 35-41);
- `skippedBucketNotFound`: early `return` when the hour bucket is absent from
  the forecast series (lines 56-58);
- `caughtByExcept`: an exception raised inside the `try` block (lines 53-86)
  was caught at line 87, nothing pushed;
- `uncaughtException`: an exception raised before the `try` block (the two
  `requests.get` calls and `.json()` parses at lines 29-44) propagates out of
  `fetch_and_store`. -/
inductive CycleResult where
  | stored : WeatherRecord → CycleResult
  | skippedForecastStatus : Nat → CycleResult
  | skippedCurrentStatus : Nat → CycleResult
  | skippedBucketNotFound : String → CycleResult
  | caughtByExcept : CycleResult
  | uncaughtException : CycleResult
deriving DecidableEq, Repr

/-- The write path, backend lines 26-88. The two HTTP fetches and the
sampling instant are the inputs the environment supplies. -/
def fetch_and_store (forecastGet : HttpResult ForecastJson)
    (currentGet : HttpResult CurrentJson) (now : DateTime) : CycleResult :=
  match forecastGet with
  | .error _ => .uncaughtException
  | .ok (forecastStatus, forecast_json) =>
    match currentGet with
    | .error _ => .uncaughtException
    | .ok (currentStatus, current_json) =>
      if forecastStatus ≠ 200 then .skippedForecastStatus forecastStatus
      else if currentStatus ≠ 200 then .skippedCurrentStatus currentStatus
      else
        let timestamp := strftimeFull now
        let hour_str := bucketOf now
        let forecast_times := forecast_json.time
        if hour_str ∈ forecast_times then
          let hour_index := forecast_times.indexOf hour_str
          match forecast_json.temperature_2m.get? hour_index,
                forecast_json.wind_speed_10m.get? hour_index with
          | some temp_forecast, some wind_forecast =>
            let temp_actual := current_json.temperature_2m
            let wind_actual := current_json.wind_speed_10m
            .stored
              { timestamp := timestamp
                temp_forecast := temp_forecast
                temp_actual := temp_actual
                wind_forecast := wind_forecast
                wind_actual := wind_actual
                temp_mse := compute temp_actual temp_forecast
                wind_mse := compute wind_actual wind_forecast }
          | _, _ => .caughtByExcept
        else .skippedBucketNotFound hour_str

/-- Backend lines 94-98: `while True: schedule.run_pending(); time.sleep(1)`.
The `schedule` library runs the job inline, so an exception the job does not
catch propagates out of `run_pending` and terminates the `while` loop (the
scheduler thread dies). This predicate states whether the loop survives a
tick whose cycle ended with the given result. -/
def schedulerSurvivesTick (r : CycleResult) : Bool :=
  match r with
  | .uncaughtException => false
  | _ => true

/-! ### Read path: the dashboard (`process_data`, dashboard lines 176-210) -/

/-- Numeric value of a decimal digit character, `none` otherwise. -/
def digitVal (c : Char) : Option Nat :=
  if c.isDigit then some (c.toNat - 48) else none

/-- Parse two digit characters as a zero-padded two-digit number. -/
def parse2 (a b : Char) : Option Nat :=
  match digitVal a, digitVal b with
  | some x, some y => some (10 * x + y)
  | _, _ => none

/-- Parse four digit characters as a zero-padded four-digit number. -/
def parse4 (a b c d : Char) : Option Nat :=
  match digitVal a, digitVal b, digitVal c, digitVal d with
  | some x, some y, some z, some w => some (1000 * x + 100 * y + 10 * z + w)
  | _, _, _, _ => none

/-- Calendar validation performed by `pd.to_datetime`: the parsed fields must
denote a real instant. -/
def fieldsValid (y mo da h mi se : Nat) : Prop :=
  1 ≤ mo ∧ mo ≤ 12 ∧ 1 ≤ da ∧ da ≤ daysInMonth y mo ∧ h < 24 ∧ mi < 60 ∧
    se < 60

instance (y mo da h mi se : Nat) : Decidable (fieldsValid y mo da h mi se) := by
  unfold fieldsValid; infer_instance

/-- Character-list form of the format `"%Y-%m-%d %H:%M:%S"`: exactly 19
characters with literal separators at the fixed positions. -/
def parseTsList : List Char → Option DateTime
  | [y1, y2, y3, y4, '-', mo1, mo2, '-', da1, da2, ' ', h1, h2, ':', mi1,
     mi2, ':', se1, se2] =>
    match parse4 y1 y2 y3 y4, parse2 mo1 mo2, parse2 da1 da2, parse2 h1 h2,
          parse2 mi1 mi2, parse2 se1 se2 with
    | some y, some mo, some da, some h, some mi, some se =>
      if fieldsValid y mo da h mi se then some ⟨y, mo, da, h, mi, se⟩
      else none
    | _, _, _, _, _, _ => none
  | _ => none

/-- Dashboard line 203: `pd.to_datetime(s, format="%Y-%m-%d %H:%M:%S")` on a
single string. The fixed format demands an exact match of the separators, and
pandas validates the fields against the real calendar. -/
def parseTimestamp (s : String) : Option DateTime :=
  parseTsList s.data

/-- One stored record as the dashboard receives it from `ref.get()`: a dict
that may lack any key. `pd.DataFrame(list(data.values()))` turns a key absent
from one dict into a NaN cell of that column, and a key absent from every
dict into an absent column. -/
structure RawRecord where
  timestamp : Option String
  temp_forecast : Option FVal
  temp_actual : Option FVal
  wind_forecast : Option FVal
  wind_actual : Option FVal
  temp_mse : Option FVal
  wind_mse : Option FVal
deriving DecidableEq, Repr

/-- Column names of the frame the dashboard builds. -/
inductive ColName where
  | timestamp | temp_forecast | temp_actual | wind_forecast | wind_actual
  | temp_mse | wind_mse
deriving DecidableEq, Repr

/-- Whether a stored dict has the given key, hence contributes the column. -/
def hasCol (c : ColName) (r : RawRecord) : Bool :=
  match c with
  | .timestamp => r.timestamp.isSome
  | .temp_forecast => r.temp_forecast.isSome
  | .temp_actual => r.temp_actual.isSome
  | .wind_forecast => r.wind_forecast.isSome
  | .wind_actual => r.wind_actual.isSome
  | .temp_mse => r.temp_mse.isSome
  | .wind_mse => r.wind_mse.isSome

/-- Dashboard line 185: the required columns (the two MSE columns are not
required). -/
def requiredCols : List ColName :=
  [.timestamp, .temp_actual, .temp_forecast, .wind_actual, .wind_forecast]

/-- One row of the processed frame. A missing numeric cell is a float NaN; a
missing or absent timestamp cell becomes NaT (`none`), since `pd.to_datetime`
with a format maps missing values to NaT rather than raising. -/
structure ProcRecord where
  timestamp : Option DateTime
  temp_forecast : FVal
  temp_actual : FVal
  wind_forecast : FVal
  wind_actual : FVal
  temp_mse : FVal
  wind_mse : FVal
deriving DecidableEq, Repr

/-- Dashboard line 203 applied to the whole timestamp column: any present
string that fails to parse raises, which the `except` at line 208 turns into
the empty-frame return; a missing cell becomes NaT. -/
def parseTsColumn : List RawRecord → Option (List (Option DateTime))
  | [] => some []
  | r :: rest =>
    match r.timestamp with
    | none =>
      (parseTsColumn rest).map (none :: ·)
    | some s =>
      match parseTimestamp s with
      | none => none
      | some dt => (parseTsColumn rest).map (some dt :: ·)

/-- Build one processed row from a raw record and its parsed timestamp. -/
def mkProcRecord (r : RawRecord) (t : Option DateTime) : ProcRecord :=
  { timestamp := t
    temp_forecast := r.temp_forecast.getD .nan
    temp_actual := r.temp_actual.getD .nan
    wind_forecast := r.wind_forecast.getD .nan
    wind_actual := r.wind_actual.getD .nan
    temp_mse := r.temp_mse.getD .nan
    wind_mse := r.wind_mse.getD .nan }

/-- Strictly monotone encoding of an instant on a number line (what the
pandas datetime64 column is for comparison purposes): field bounds keep each
mixed radix digit in range. -/
def keyOf (dt : DateTime) : Nat :=
  ((((dt.year * 13 + dt.month) * 32 + dt.day) * 24 + dt.hour) * 60 +
    dt.minute) * 60 + dt.second

/-- Sort key of a row: NaT sorts after every real instant in the descending
sort (`sort_values` puts missing values last), so NaT gets the smallest key. -/
def tsKey : Option DateTime → Nat
  | none => 0
  | some dt => 1 + keyOf dt

/-- The comparison of dashboard line 204, `sort_values("timestamp",
ascending=False)`: row `a` may precede row `b` when its key is at least as
large. -/
def rowsDescend (a b : ProcRecord) : Prop :=
  tsKey b.timestamp ≤ tsKey a.timestamp

instance : DecidableRel rowsDescend := by
  unfold rowsDescend; infer_instance

instance : IsTotal ProcRecord rowsDescend :=
  ⟨fun a b => Nat.le_total (tsKey b.timestamp) (tsKey a.timestamp)⟩

instance : IsTrans ProcRecord rowsDescend :=
  ⟨fun _ _ _ h1 h2 => Nat.le_trans h2 h1⟩

/-- Result of `process_data`. Each constructor is one distinct exit of the
Python function:
- `emptyNoData`: `if not data: return pd.DataFrame()` (lines 178-179) — empty
  frame, no error shown;
- `missingColumns`: required columns absent from the frame (lines 188-190) —
  `st.error` then empty frame;
- `processingError`: an exception inside the `try` (here: an unparsable
  timestamp at line 203) caught at line 208 — `st.error` then empty frame;
- `ok`: the renamed, converted, sorted frame returned at line 206. -/
inductive DashResult where
  | emptyNoData : DashResult
  | missingColumns : List ColName → DashResult
  | processingError : DashResult
  | ok : List ProcRecord → DashResult
deriving DecidableEq, Repr

/-- The read path, dashboard lines 176-210, on the list of stored dicts
(`list(data.values())`). -/
def process_data (data : List RawRecord) : DashResult :=
  if data.isEmpty then .emptyNoData
  else
    let missing_cols := requiredCols.filter fun c => !(data.any (hasCol c))
    if missing_cols.isEmpty then
      match parseTsColumn data with
      | none => .processingError
      | some ts =>
        let rows := (data.zip ts).map fun p => mkProcRecord p.1 p.2
        .ok (List.insertionSort rowsDescend rows)
    else .missingColumns missing_cols

/-- The fail-closed exits of the read path: an empty frame accompanied by a
reported error. -/
def DashResult.failClosed : DashResult → Prop
  | .missingColumns _ => True
  | .processingError => True
  | _ => False

instance (d : DashResult) : Decidable d.failClosed := by
  unfold DashResult.failClosed
  cases d <;> infer_instance

/-! ### Concrete sample data -/

/-- Forecast body of the spec's end-to-end example. -/
def exampleForecast : ForecastJson :=
  { time := ["2024-03-01T14:00"], temperature_2m := [.fin 18.2],
    wind_speed_10m := [.fin 9] }

/-- Current reading of the spec's end-to-end example. -/
def exampleCurrent : CurrentJson :=
  { temperature_2m := .fin 19, wind_speed_10m := .fin 11.5 }

/-- The sampling instant 2024-03-01T14:05:00 of the spec's example. -/
def exampleInstant : DateTime := ⟨2024, 3, 1, 14, 5, 0⟩

/-- The record the spec's example expects to be persisted. -/
def exampleRecord : WeatherRecord :=
  { timestamp := "2024-03-01 14:05:00", temp_forecast := .fin 18.2,
    temp_actual := .fin 19, wind_forecast := .fin 9,
    wind_actual := .fin 11.5, temp_mse := .fin 0.64, wind_mse := .fin 6.25 }

/-- A stored record with every field present, as the read path sees it. -/
def rowAllFields : RawRecord :=
  { timestamp := some "2024-03-01 14:05:00", temp_forecast := some (.fin 18.2),
    temp_actual := some (.fin 19), wind_forecast := some (.fin 9),
    wind_actual := some (.fin 11.5), temp_mse := some (.fin 0.64),
    wind_mse := some (.fin 6.25) }

/-- A stored record one hour later that is missing only the wind_actual
key. -/
def rowNoWindActual : RawRecord :=
  { rowAllFields with
    timestamp := some "2024-03-01 15:05:00",
    wind_actual := none }

/-- A stored record whose timestamp string does not parse under the fixed
format. -/
def rowBadTimestamp : RawRecord :=
  { rowAllFields with timestamp := some "bogus" }

/-! ### Helper lemmas -/

theorem digitVal_digitChar {n : Nat} (h : n ≤ 9) :
    digitVal (digitChar n) = some n := by
  interval_cases n <;> decide

theorem parse2_pad2 {n : Nat} (h : n < 100) :
    parse2 (digitChar (n / 10)) (digitChar (n % 10)) = some n := by
  have h1 : n / 10 ≤ 9 := by omega
  have h2 : n % 10 ≤ 9 := by omega
  simp only [parse2, digitVal_digitChar h1, digitVal_digitChar h2]
  congr 1
  omega

theorem parse4_pad4 {n : Nat} (h : n < 10000) :
    parse4 (digitChar (n / 1000)) (digitChar (n / 100 % 10))
      (digitChar (n / 10 % 10)) (digitChar (n % 10)) = some n := by
  have h1 : n / 1000 ≤ 9 := by omega
  have h2 : n / 100 % 10 ≤ 9 := by omega
  have h3 : n / 10 % 10 ≤ 9 := by omega
  have h4 : n % 10 ≤ 9 := by omega
  simp only [parse4, digitVal_digitChar h1, digitVal_digitChar h2,
    digitVal_digitChar h3, digitVal_digitChar h4]
  congr 1
  omega

/-- The persisted timestamp parses back to the instant it was formatted
from. -/
theorem parseTimestamp_strftimeFull {dt : DateTime} (h : dt.Valid) :
    parseTimestamp (strftimeFull dt) = some dt := by
  obtain ⟨hy, hm1, hm2, hd1, hd2, hh, hmi, hs⟩ := h
  have hm : dt.month < 100 := by omega
  have hd : dt.day < 100 := by
    have : daysInMonth dt.year dt.month ≤ 31 := by
      unfold daysInMonth
      split_ifs <;> omega
    omega
  have hho : dt.hour < 100 := by omega
  have hmin : dt.minute < 100 := by omega
  have hsec : dt.second < 100 := by omega
  simp only [parseTimestamp, strftimeFull, pad4, pad2, List.cons_append,
    List.nil_append]
  simp only [parseTsList, parse4_pad4 hy, parse2_pad2 hm, parse2_pad2 hd,
    parse2_pad2 hho, parse2_pad2 hmin, parse2_pad2 hsec]
  rw [if_pos]
  exact ⟨hm1, hm2, hd1, hd2, hh, hmi, hs⟩

/-- When both fetches return HTTP responses, `fetch_and_store` reaches one of
its own exits: no exception escapes (every raise inside the `try` is caught at
line 87). -/
theorem fetch_ok_ne_uncaught (fs : Nat) (fj : ForecastJson) (cs : Nat)
    (cj : CurrentJson) (now : DateTime) :
    fetch_and_store (.ok (fs, fj)) (.ok (cs, cj)) now ≠
      .uncaughtException := by
  unfold fetch_and_store
  dsimp only
  split_ifs <;> try simp
  split <;> simp

/-- A cycle result other than an uncaught exception leaves the scheduler
loop running. -/
theorem schedulerSurvives_of_ne {r : CycleResult}
    (h : r ≠ .uncaughtException) : schedulerSurvivesTick r = true := by
  cases r <;> simp_all [schedulerSurvivesTick]

/-- Inversion of a successful cycle: a stored record implies both fetches
returned 200, the hour bucket was present, and every field of the record is
determined by the inputs. -/
theorem stored_inversion {fg : HttpResult ForecastJson}
    {cg : HttpResult CurrentJson} {now : DateTime} {rec : WeatherRecord}
    (h : fetch_and_store fg cg now = .stored rec) :
    ∃ fj cj, fg = .ok (200, fj) ∧ cg = .ok (200, cj) ∧
      bucketOf now ∈ fj.time ∧
      fj.temperature_2m.get? (fj.time.indexOf (bucketOf now)) =
        some rec.temp_forecast ∧
      fj.wind_speed_10m.get? (fj.time.indexOf (bucketOf now)) =
        some rec.wind_forecast ∧
      rec.timestamp = strftimeFull now ∧
      rec.temp_actual = cj.temperature_2m ∧
      rec.wind_actual = cj.wind_speed_10m ∧
      rec.temp_mse = compute cj.temperature_2m rec.temp_forecast ∧
      rec.wind_mse = compute cj.wind_speed_10m rec.wind_forecast := by
  match fg with
  | .error e => exact absurd h (by simp [fetch_and_store])
  | .ok (fs, fj) =>
    match cg with
    | .error e => exact absurd h (by simp [fetch_and_store])
    | .ok (cs, cj) =>
      refine ⟨fj, cj, ?_⟩
      unfold fetch_and_store at h
      dsimp only at h
      split_ifs at h with h1 h2 h3 <;> try cases h
      push_neg at h1 h2
      subst h1; subst h2
      split at h <;> cases h
      rename_i htf hwf
      exact ⟨rfl, rfl, h3, htf, hwf, rfl, rfl, rfl, rfl, rfl⟩

/-- Parsing the timestamp column preserves the row count. -/
theorem parseTsColumn_length {data : List RawRecord}
    {ts : List (Option DateTime)} (h : parseTsColumn data = some ts) :
    ts.length = data.length := by
  induction data generalizing ts with
  | nil =>
    simp only [parseTsColumn, Option.some_inj] at h
    simp [← h]
  | cons r rest ih =>
    cases hr : r.timestamp with
    | none =>
      simp only [parseTsColumn, hr, Option.map_eq_some'] at h
      obtain ⟨ts2, hts2, hcons⟩ := h
      subst hcons
      simp [ih hts2]
    | some s =>
      cases hp : parseTimestamp s with
      | none => simp [parseTsColumn, hr, hp] at h
      | some dt =>
        simp only [parseTsColumn, hr, hp, Option.map_eq_some'] at h
        obtain ⟨ts2, hts2, hcons⟩ := h
        subst hcons
        simp [ih hts2]

/-- One row with a present but unparsable timestamp makes the column
conversion raise. -/
theorem parseTsColumn_none {data : List RawRecord} {r : RawRecord}
    {s : String} (hr : r ∈ data) (hts : r.timestamp = some s)
    (hp : parseTimestamp s = none) : parseTsColumn data = none := by
  induction data with
  | nil => cases hr
  | cons a rest ih =>
    rcases List.mem_cons.mp hr with heq | hmem
    · subst heq
      simp [parseTsColumn, hts, hp]
    · cases ha : a.timestamp with
      | none => simp [parseTsColumn, ha, ih hmem]
      | some s2 =>
        cases hpa : parseTimestamp s2 with
        | none => simp [parseTsColumn, ha, hpa]
        | some dt => simp [parseTsColumn, ha, hpa, ih hmem]

/-- Inversion of a successful read: an `ok` result comes from a non-empty
store with no column missing, a fully parsed timestamp column, and the rows
are the sorted processed records. -/
theorem process_data_ok_inversion {data : List RawRecord}
    {rows : List ProcRecord} (h : process_data data = .ok rows) :
    ∃ ts, parseTsColumn data = some ts ∧
      rows = List.insertionSort rowsDescend
        ((data.zip ts).map fun p => mkProcRecord p.1 p.2) := by
  unfold process_data at h
  dsimp only at h
  split_ifs at h with h1 h2 <;> try cases h
  split at h <;> cases h
  rename_i ts hts
  exact ⟨ts, hts, rfl⟩

/-! ### Claim theorems -/

/-- C6: for all numeric inputs, the metric computation returns the squared
difference of actual and forecast, is finite on finite inputs (it is a total
function, so it cannot fail or have side effects), and is invariant under
swapping the two arguments (the sign of the difference). -/
theorem claim6_metric_squared_error :
    (∀ a f : ℚ, compute (.fin a) (.fin f) = .fin ((a - f) ^ 2) ∧
      (compute (.fin a) (.fin f)).isFinite = true) ∧
    (∀ x y : FVal, compute x y = compute y x) := by
  refine ⟨fun a f => ⟨rfl, rfl⟩, fun x y => ?_⟩
  cases x <;> cases y <;> simp [compute, FVal.sub, FVal.sq]
  ring

/-- C9: the end-to-end example of the spec. With the forecast series
containing bucket 2024-03-01T14:00 (temperature 18.2, wind 9), the current
reading 19 and 11.5, and the sampling instant 2024-03-01T14:05:00, the cycle
stores exactly the record with temp_mse 0.64 and wind_mse 6.25 (arithmetic
modelled over exact rationals). -/
theorem claim9_end_to_end_example :
    fetch_and_store (.ok (200, exampleForecast)) (.ok (200, exampleCurrent))
      exampleInstant = .stored exampleRecord := by
  with_unfolding_all decide

/-- C2 counterexample: a cycle whose computed temp_mse is NaN (the current
temperature reading is NaN, so the squared error is NaN, a non-finite value)
still appends a record to the store — the write path has no finiteness
check, contradicting the claim that no record is appended. -/
theorem claim2_counterexample :
    fetch_and_store (.ok (200, exampleForecast))
        (.ok (200, ⟨.nan, .fin 11.5⟩)) exampleInstant =
      .stored ⟨"2024-03-01 14:05:00", .fin 18.2, .nan, .fin 9, .fin 11.5,
        .nan, .fin 6.25⟩ ∧
    FVal.isFinite .nan = false := by
  exact ⟨by with_unfolding_all decide, rfl⟩

/-- C2 (amended): the write path performs no finiteness check on the
computed squared errors. Whenever both fetches return status 200, the hour
bucket is found and the forecast arrays reach its index, a record is
appended whose mse fields are whatever `compute` produced — including NaN,
which is persisted as-is. -/
theorem claim2_no_finiteness_check (fj : ForecastJson) (cj : CurrentJson)
    (now : DateTime) (tf wf : FVal)
    (hb : bucketOf now ∈ fj.time)
    (ht : fj.temperature_2m.get? (fj.time.indexOf (bucketOf now)) = some tf)
    (hw : fj.wind_speed_10m.get? (fj.time.indexOf (bucketOf now)) = some wf) :
    fetch_and_store (.ok (200, fj)) (.ok (200, cj)) now =
      .stored { timestamp := strftimeFull now
                temp_forecast := tf
                temp_actual := cj.temperature_2m
                wind_forecast := wf
                wind_actual := cj.wind_speed_10m
                temp_mse := compute cj.temperature_2m tf
                wind_mse := compute cj.wind_speed_10m wf } := by
  unfold fetch_and_store
  dsimp only
  rw [if_neg (by simp), if_neg (by simp), if_pos hb, ht, hw]

/-- C2 witness: the amended theorem applied to a cycle whose wind reading is
NaN; the record is stored with a NaN wind_mse. -/
theorem claim2_no_finiteness_check_witness :
    fetch_and_store (.ok (200, exampleForecast))
        (.ok (200, ⟨.fin 19, .nan⟩)) exampleInstant =
      .stored { timestamp := strftimeFull exampleInstant
                temp_forecast := .fin 18.2
                temp_actual := .fin 19
                wind_forecast := .fin 9
                wind_actual := .nan
                temp_mse := compute (.fin 19) (.fin 18.2)
                wind_mse := compute .nan (.fin 9) } :=
  claim2_no_finiteness_check exampleForecast ⟨.fin 19, .nan⟩ exampleInstant
    (.fin 18.2) (.fin 9) (by decide) (by with_unfolding_all decide)
    (by with_unfolding_all decide)

/-- C3 counterexample: a transport-level exception on the forecast fetch
does not become a typed error — `requests.get` sits before the `try` block,
so the exception escapes `fetch_and_store` uncaught and the scheduler loop
does not survive the tick, contradicting the claim. -/
theorem claim3_counterexample :
    fetch_and_store (.error .exn) (.ok (200, exampleCurrent))
        exampleInstant = .uncaughtException ∧
    schedulerSurvivesTick .uncaughtException = false :=
  ⟨rfl, rfl⟩

/-- C3 (amended): a non-200 HTTP status on either fetch yields a typed skip
and never an uncaught exception, so the scheduler survives such a cycle; but
a transport-level exception raised by either `requests.get` propagates
uncaught out of `fetch_and_store` and terminates the scheduler loop. -/
theorem claim3_status_handled_transport_fatal :
    (∀ (fs : Nat) (fj : ForecastJson) (cs : Nat) (cj : CurrentJson)
      (now : DateTime),
      fetch_and_store (.ok (fs, fj)) (.ok (cs, cj)) now ≠
        .uncaughtException ∧
      schedulerSurvivesTick
        (fetch_and_store (.ok (fs, fj)) (.ok (cs, cj)) now) = true ∧
      (fs ≠ 200 → fetch_and_store (.ok (fs, fj)) (.ok (cs, cj)) now =
        .skippedForecastStatus fs) ∧
      (fs = 200 → cs ≠ 200 →
        fetch_and_store (.ok (fs, fj)) (.ok (cs, cj)) now =
          .skippedCurrentStatus cs)) ∧
    (∀ (cg : HttpResult CurrentJson) (now : DateTime),
      fetch_and_store (.error .exn) cg now = .uncaughtException ∧
      schedulerSurvivesTick (fetch_and_store (.error .exn) cg now) =
        false) ∧
    (∀ (fs : Nat) (fj : ForecastJson) (now : DateTime),
      fetch_and_store (.ok (fs, fj)) (.error .exn) now =
        .uncaughtException) := by
  refine ⟨fun fs fj cs cj now => ⟨fetch_ok_ne_uncaught fs fj cs cj now,
    schedulerSurvives_of_ne (fetch_ok_ne_uncaught fs fj cs cj now),
    fun hfs => ?_, fun hfs hcs => ?_⟩,
    fun cg now => ⟨rfl, rfl⟩, fun fs fj now => rfl⟩
  · unfold fetch_and_store
    dsimp only
    rw [if_pos hfs]
  · subst hfs
    unfold fetch_and_store
    dsimp only
    rw [if_neg (by simp), if_pos hcs]

/-- C3 witness: the amended theorem applied to concrete cycles — a 500 on
the forecast fetch skips, a 404 on the current fetch skips, a transport
exception on the current fetch escapes uncaught. -/
theorem claim3_witness :
    fetch_and_store (.ok (500, exampleForecast)) (.ok (200, exampleCurrent))
        exampleInstant = .skippedForecastStatus 500 ∧
    fetch_and_store (.ok (200, exampleForecast)) (.ok (404, exampleCurrent))
        exampleInstant = .skippedCurrentStatus 404 ∧
    fetch_and_store (.ok (200, exampleForecast)) (.error .exn)
        exampleInstant = .uncaughtException :=
  ⟨(claim3_status_handled_transport_fatal.1 500 exampleForecast 200
      exampleCurrent exampleInstant).2.2.1 (by decide),
   (claim3_status_handled_transport_fatal.1 200 exampleForecast 404
      exampleCurrent exampleInstant).2.2.2 rfl (by decide),
   claim3_status_handled_transport_fatal.2.2 200 exampleForecast
      exampleInstant⟩

/-- C4: when the forecast series does not contain the hour bucket of the
sampling instant, the cycle ends with the bucket-not-found skip, no record
is ever stored for that cycle, and the scheduler loop survives (the early
`return` raises nothing). -/
theorem claim4_missing_bucket_skips (fj : ForecastJson) (cj : CurrentJson)
    (now : DateTime) (h : bucketOf now ∉ fj.time) :
    fetch_and_store (.ok (200, fj)) (.ok (200, cj)) now =
      .skippedBucketNotFound (bucketOf now) ∧
    (∀ rec, fetch_and_store (.ok (200, fj)) (.ok (200, cj)) now ≠
      .stored rec) ∧
    schedulerSurvivesTick
      (fetch_and_store (.ok (200, fj)) (.ok (200, cj)) now) = true := by
  have heq : fetch_and_store (.ok (200, fj)) (.ok (200, cj)) now =
      .skippedBucketNotFound (bucketOf now) := by
    unfold fetch_and_store
    dsimp only
    rw [if_neg (by simp), if_neg (by simp), if_neg h]
  refine ⟨heq, fun rec hc => ?_, by rw [heq]; rfl⟩
  rw [heq] at hc
  cases hc

/-- C4 witness: the theorem applied to a forecast series that has only a
bucket from a different hour. -/
theorem claim4_missing_bucket_skips_witness :
    fetch_and_store
        (.ok (200, ⟨["2024-03-01T13:00"], [.fin 18.2], [.fin 9]⟩))
        (.ok (200, exampleCurrent)) exampleInstant =
      .skippedBucketNotFound (bucketOf exampleInstant) ∧
    schedulerSurvivesTick (fetch_and_store
        (.ok (200, ⟨["2024-03-01T13:00"], [.fin 18.2], [.fin 9]⟩))
        (.ok (200, exampleCurrent)) exampleInstant) = true := by
  have h := claim4_missing_bucket_skips
    ⟨["2024-03-01T13:00"], [.fin 18.2], [.fin 9]⟩ exampleCurrent
    exampleInstant (by decide)
  exact ⟨h.1, h.2.2⟩

/-- C5: the aligner truncates the sampling instant to the top of the hour,
formats it as YYYY-MM-DDTHH:00 (e.g. 2024-03-01T14:37:00 gives the bucket
2024-03-01T14:00), and any stored record takes its forecast values from the
index of the exact match of that bucket in the series time list. -/
theorem claim5_hour_bucket_alignment :
    bucketOf ⟨2024, 3, 1, 14, 37, 0⟩ = "2024-03-01T14:00" ∧
    (∀ now : DateTime,
      bucketOf now = strftimeHourBucket { now with minute := 0, second := 0 }) ∧
    (∀ (fs : Nat) (fj : ForecastJson) (cs : Nat) (cj : CurrentJson)
      (now : DateTime) (rec : WeatherRecord),
      fetch_and_store (.ok (fs, fj)) (.ok (cs, cj)) now = .stored rec →
      bucketOf now ∈ fj.time ∧
      fj.temperature_2m.get? (fj.time.indexOf (bucketOf now)) =
        some rec.temp_forecast ∧
      fj.wind_speed_10m.get? (fj.time.indexOf (bucketOf now)) =
        some rec.wind_forecast) := by
  refine ⟨by decide, fun now => rfl, ?_⟩
  intro fs fj cs cj now rec h
  obtain ⟨fj2, cj2, hf, hc, hb, ht, hw, _⟩ := stored_inversion h
  injection hf with hpair
  injection hpair with hfs hfj
  subst hfj
  exact ⟨hb, ht, hw⟩

/-- C5 witness: the alignment conjunct applied to the stored cycle of the
end-to-end example. -/
theorem claim5_hour_bucket_alignment_witness :
    bucketOf exampleInstant ∈ exampleForecast.time ∧
    exampleForecast.temperature_2m.get?
      (exampleForecast.time.indexOf (bucketOf exampleInstant)) =
      some exampleRecord.temp_forecast ∧
    exampleForecast.wind_speed_10m.get?
      (exampleForecast.time.indexOf (bucketOf exampleInstant)) =
      some exampleRecord.wind_forecast :=
  claim5_hour_bucket_alignment.2.2 200 exampleForecast 200 exampleCurrent
    exampleInstant exampleRecord (by with_unfolding_all decide)

/-- C1 counterexample: a store with one full record and one record missing
only wind_actual. The claim says the read returns empty with a validation
error; instead the read succeeds, returns as many rows as the store has
records, and silently includes the incomplete record with a NaN
wind_actual. -/
theorem claim1_counterexample :
    process_data [rowAllFields, rowNoWindActual] =
      .ok [mkProcRecord rowNoWindActual (some ⟨2024, 3, 1, 15, 5, 0⟩),
           mkProcRecord rowAllFields (some ⟨2024, 3, 1, 14, 5, 0⟩)] ∧
    ¬(process_data [rowAllFields, rowNoWindActual]).failClosed ∧
    rowNoWindActual.wind_actual = none ∧
    (mkProcRecord rowNoWindActual
      (some ⟨2024, 3, 1, 15, 5, 0⟩)).wind_actual = .nan := by
  refine ⟨by with_unfolding_all decide, by with_unfolding_all decide,
    rfl, rfl⟩

/-- C1 (amended): the required-field check of the read path is column-level,
not record-level. An `ok` read never drops rows — it always returns exactly
as many rows as the store has records, so a record missing a field that
other records have is included (with a NaN cell) rather than dropped; the
read fails closed only when a required field is absent from every record
(shown here for wind_actual), in which case the column itself is missing. -/
theorem claim1_column_level_validation :
    (∀ (data : List RawRecord) (rows : List ProcRecord),
      process_data data = .ok rows → rows.length = data.length) ∧
    (∀ data : List RawRecord, data ≠ [] →
      (∀ r ∈ data, r.wind_actual = none) →
      (process_data data).failClosed ∧
      process_data data =
        .missingColumns (requiredCols.filter
          fun c => !(data.any (hasCol c))) ∧
      ColName.wind_actual ∈ requiredCols.filter
        fun c => !(data.any (hasCol c))) := by
  constructor
  · intro data rows h
    obtain ⟨ts, hts, hrows⟩ := process_data_ok_inversion h
    subst hrows
    rw [List.length_insertionSort, List.length_map, List.length_zip,
      parseTsColumn_length hts, Nat.min_self]
  · intro data hne hall
    have hany : data.any (hasCol .wind_actual) = false := by
      rw [List.any_eq_false]
      intro r hrm
      simp [hasCol, hall r hrm]
    have hmem : ColName.wind_actual ∈ requiredCols.filter
        fun c => !(data.any (hasCol c)) := by
      rw [List.mem_filter]
      exact ⟨by decide, by rw [hany]; rfl⟩
    have heq : process_data data =
        .missingColumns (requiredCols.filter
          fun c => !(data.any (hasCol c))) := by
      unfold process_data
      dsimp only
      split_ifs with hE hM
      · exact absurd (List.isEmpty_iff.mp hE) hne
      · exfalso
        rw [List.isEmpty_iff.mp hM] at hmem
        cases hmem
      · rfl
    refine ⟨?_, heq, hmem⟩
    rw [heq]
    trivial

/-- C1 witness: the amended theorem applied to concrete stores — a two-row
read keeps both rows, and a store whose only record lacks wind_actual fails
closed with that column reported missing. -/
theorem claim1_column_level_validation_witness :
    ([mkProcRecord rowNoWindActual (some ⟨2024, 3, 1, 15, 5, 0⟩),
      mkProcRecord rowAllFields (some ⟨2024, 3, 1, 14, 5, 0⟩)].length =
      [rowAllFields, rowNoWindActual].length) ∧
    (process_data [{ rowAllFields with wind_actual := none }]).failClosed := by
  constructor
  · exact claim1_column_level_validation.1 [rowAllFields, rowNoWindActual]
      [mkProcRecord rowNoWindActual (some ⟨2024, 3, 1, 15, 5, 0⟩),
       mkProcRecord rowAllFields (some ⟨2024, 3, 1, 14, 5, 0⟩)]
      (by with_unfolding_all decide)
  · exact (claim1_column_level_validation.2
      [{ rowAllFields with wind_actual := none }] (by simp)
      (by intro r hr; simp at hr; rw [hr])).1

/-- C7: every successful read returns rows sorted by parsed timestamp in
descending order — under the key that renders a real instant as one plus its
chronological encoding and a missing timestamp as zero (so NaT rows sort
last, as `sort_values` places missing values), each row's key is at least
the next row's key. -/
theorem claim7_read_sorted_descending (data : List RawRecord)
    (rows : List ProcRecord) (h : process_data data = .ok rows) :
    rows.Pairwise fun a b => tsKey b.timestamp ≤ tsKey a.timestamp := by
  obtain ⟨ts, hts, hrows⟩ := process_data_ok_inversion h
  subst hrows
  exact List.sorted_insertionSort rowsDescend _

/-- C7 witness: the sortedness theorem applied to a concrete two-record
store whose rows come back most recent first. -/
theorem claim7_read_sorted_descending_witness :
    ([mkProcRecord rowNoWindActual (some ⟨2024, 3, 1, 15, 5, 0⟩),
      mkProcRecord rowAllFields (some ⟨2024, 3, 1, 14, 5, 0⟩)]).Pairwise
      (fun a b => tsKey b.timestamp ≤ tsKey a.timestamp) :=
  claim7_read_sorted_descending [rowAllFields, rowNoWindActual]
    [mkProcRecord rowNoWindActual (some ⟨2024, 3, 1, 15, 5, 0⟩),
     mkProcRecord rowAllFields (some ⟨2024, 3, 1, 14, 5, 0⟩)]
    (by with_unfolding_all decide)

/-- C8: a store containing a record whose timestamp string does not parse
under the fixed format makes the read fail closed — an empty result with a
reported error, never an `ok` sequence (partial or coerced). -/
theorem claim8_unparsable_timestamp_fails_closed (data : List RawRecord)
    (r : RawRecord) (s : String) (hr : r ∈ data)
    (hts : r.timestamp = some s) (hp : parseTimestamp s = none) :
    (process_data data).failClosed ∧
    ∀ rows, process_data data ≠ .ok rows := by
  have hne : data.isEmpty = false := by
    cases data with
    | nil => cases hr
    | cons a rest => rfl
  have hcol : parseTsColumn data = none := parseTsColumn_none hr hts hp
  have hres : (process_data data).failClosed := by
    unfold process_data
    dsimp only
    rw [if_neg (by rw [hne]; exact Bool.false_ne_true)]
    split_ifs with hM
    · rw [hcol]
      trivial
    · trivial
  refine ⟨hres, fun rows hok => ?_⟩
  rw [hok] at hres
  cases hres

/-- C8 witness: the theorem applied to a store holding one good record and
one whose timestamp is the unparsable string "bogus". -/
theorem claim8_unparsable_timestamp_fails_closed_witness :
    (process_data [rowAllFields, rowBadTimestamp]).failClosed ∧
    ∀ rows, process_data [rowAllFields, rowBadTimestamp] ≠ .ok rows :=
  claim8_unparsable_timestamp_fails_closed [rowAllFields, rowBadTimestamp]
    rowBadTimestamp "bogus" (by with_unfolding_all decide) rfl (by decide)

/-- C10: the write and read timestamp formats agree. For every calendar
valid sampling instant, the string the write path persists parses back to
exactly that instant under the read path's fixed format, reformatting the
parsed value reproduces the original string, and every stored record's
timestamp field is that formatted string. -/
theorem claim10_timestamp_roundtrip (dt : DateTime) (h : dt.Valid) :
    parseTimestamp (strftimeFull dt) = some dt ∧
    (∀ dt2, parseTimestamp (strftimeFull dt) = some dt2 →
      strftimeFull dt2 = strftimeFull dt) ∧
    (∀ (fg : HttpResult ForecastJson) (cg : HttpResult CurrentJson)
      (rec : WeatherRecord), fetch_and_store fg cg dt = .stored rec →
      rec.timestamp = strftimeFull dt ∧
      parseTimestamp rec.timestamp = some dt) := by
  have hrt := parseTimestamp_strftimeFull h
  refine ⟨hrt, fun dt2 h2 => ?_, fun fg cg rec hs => ?_⟩
  · rw [hrt] at h2
    cases h2
    rfl
  · obtain ⟨fj, cj, _, _, _, _, _, hts, _⟩ := stored_inversion hs
    refine ⟨hts, ?_⟩
    rw [hts]
    exact hrt

/-- C10 witness: the round-trip theorem applied to the example instant
2024-03-01T14:05:00. -/
theorem claim10_timestamp_roundtrip_witness :
    parseTimestamp (strftimeFull exampleInstant) = some exampleInstant ∧
    parseTimestamp "2024-03-01 14:05:00" = some exampleInstant :=
  ⟨(claim10_timestamp_roundtrip exampleInstant (by decide)).1,
   (claim10_timestamp_roundtrip exampleInstant (by decide)).1⟩

end IotWeather
